import Mathlib

/-
Verification of the deferred-expression and blockwise-dispatch engine of
dask_grblas (src/dask_grblas/expr.py) against its specification.

The embedding models sparse vectors and matrices as sorted association lists
of (index, value) entries over Int values, with an explicit dtype tag and an
explicit cast function.  Python exceptions are modelled by an error type whose
constructors follow the specification taxonomy (section 7):
  usageError            <- AssertionError raised by assert statements
  unsupportedOperation  <- ValueError(method_name) and NotImplementedError
  backendError          <- exceptions propagated from the grblas backend,
                           e.g. TypeError from gb.Vector.from_values receiving
                           a None value
Fallible code returns Except Err.  Every definition is translated from
src/dask_grblas/expr.py except where a doc comment says it is modelled from
the spec (code living in base.py, utils.py or the external grblas / dask
libraries, which are not under src/).
-/

set_option autoImplicit false

namespace DaskGrblas

/-- Dtypes of the model.  int64 values are unconstrained; boolean values are
normalised to 0/1 on cast, mirroring the GraphBLAS int-to-bool typecast. -/
inductive Dtype where
  | int64
  | boolean
  deriving DecidableEq, Repr

/-- Typecast applied by grblas when a value is materialised at a dtype
(the `.new(dtype=...)` calls in expr.py). -/
def castInt : Dtype → Int → Int
  | .int64, x => x
  | .boolean, x => if x = 0 then 0 else 1

/-- Error kinds, following the taxonomy of spec section 7.  Correspondence to
the Python exceptions raised by expr.py: usageError models AssertionError from
assert statements; unsupportedOperation models ValueError(method_name) and
NotImplementedError; backendError models exceptions raised inside the grblas
backend. -/
inductive Err where
  | usageError
  | unsupportedOperation (what : String)
  | backendError (what : String)
  deriving DecidableEq, Repr

/-- Sparse entries of a one-dimensional block: (index, value) pairs in
increasing index order. -/
abbrev Entries := List (Nat × Int)

/-- Lookup of the value stored at index i, if present. -/
def lookupE (i : Nat) : Entries → Option Int
  | [] => none
  | (j, b) :: es => if j = i then some b else lookupE i es

/-- Sparse one-dimensional block (a grblas Vector held by one dask chunk). -/
structure SVec where
  size : Nat
  dtype : Dtype
  entries : Entries
  deriving DecidableEq, Repr

/-- Sparse two-dimensional block (a grblas Matrix held by one dask chunk).
Entries are (row, col, value) triples in row-major order. -/
structure SMat where
  nrows : Nat
  ncols : Nat
  dtype : Dtype
  entries : List (Nat × Nat × Int)
  deriving DecidableEq, Repr

/-- Insert an entry coming from the left operand into the (sorted) entries of
the right operand, combining with op on an index collision; op is applied as
op leftValue rightValue. -/
def insertWith (op : Int → Int → Int) (i : Nat) (a : Int) : Entries → Entries
  | [] => [(i, a)]
  | (j, b) :: es =>
    if i < j then (i, a) :: (j, b) :: es
    else if i = j then (i, op a b) :: es
    else (j, b) :: insertWith op i a es

/-- Union of two sparse blocks combining common positions with op: the model
of grblas left.ewise_add(right, op). -/
def unionWith (op : Int → Int → Int) (xs ys : Entries) : Entries :=
  xs.foldr (fun e acc => insertWith op e.1 e.2 acc) ys

/-- Intersection of two sparse blocks combining with op: the model of grblas
left.ewise_mult(right, op). -/
def interWith (op : Int → Int → Int) (xs ys : Entries) : Entries :=
  xs.filterMap (fun e => (lookupE e.1 ys).map (fun b => (e.1, op e.2 b)))

/-- Monoid fold over the list of stored values of a block; an empty block
reduces to an empty (none) scalar, as in grblas. -/
def reduceVals (op : Int → Int → Int) : List Int → Option Int
  | [] => none
  | v :: vs => some (vs.foldl op v)

/-! ## ShapeAdapter: asOneColMatrix, asOneRowMatrix, asVector -/

/-- asOneColMatrix (expr.py line 549): reinterpret a 1-D sparse block as an
nrows-by-1 matrix; the vector index array becomes the row index array. -/
def asOneColMatrix (v : SVec) : SMat :=
  { nrows := v.size, ncols := 1, dtype := v.dtype,
    entries := v.entries.map (fun e => (e.1, 0, e.2)) }

/-- asOneRowMatrix (expr.py line 561): reinterpret a 1-D sparse block as a
1-by-ncols matrix; the vector index array becomes the column index array. -/
def asOneRowMatrix (v : SVec) : SMat :=
  { nrows := 1, ncols := v.size, dtype := v.dtype,
    entries := v.entries.map (fun e => (0, e.1, e.2)) }

/-- asVector (expr.py line 573): the inverse conversion.  A single-row matrix
is unpacked in csr form (column indices become vector indices); otherwise a
single-column matrix is unpacked in csc form (row indices become vector
indices); any other shape raises NotImplementedError. -/
def asVector (m : SMat) : Except Err SVec :=
  if m.nrows = 1 then
    .ok { size := m.ncols, dtype := m.dtype,
          entries := m.entries.map (fun e => (e.2.1, e.2.2)) }
  else if m.ncols = 1 then
    .ok { size := m.nrows, dtype := m.dtype,
          entries := m.entries.map (fun e => (e.1, e.2.2)) }
  else
    .error (.unsupportedOperation "asVector")

/-! ## Extractor node attributes (expr.py lines 332-340) -/

/-- Wrapped inner block handle as seen by Extractor.__init__: it carries a
dtype and a rank (ndim), the rank being 1 or 2 for vector and matrix blocks. -/
structure InnerBlock where
  dtype : Dtype
  ndim : Nat
  deriving DecidableEq, Repr

/-- Value of a dynamically-typed Python attribute: either a natural number or
a dtype object. -/
inductive PyAttr where
  | ofNat (n : Nat)
  | ofDtype (d : Dtype)
  deriving DecidableEq, Repr

/-- Attributes of an Extractor node. -/
structure ExtractorS where
  dtype : PyAttr
  ndim : PyAttr
  deriving DecidableEq, Repr

/-- Extractor.__init__ for a base node (index=None) over an inner block
(expr.py lines 333-337): the code assigns self.dtype = inner.dtype and then
self.ndim = inner.dtype, storing the dtype object, not the rank, in ndim. -/
def Extractor.initE (inner : InnerBlock) : ExtractorS :=
  { dtype := PyAttr.ofDtype inner.dtype, ndim := PyAttr.ofDtype inner.dtype }

/-! ## Masks and metadata -/

/-- Kind discriminator of a mask (value mask vs structural mask). -/
inductive MaskKind where
  | valueMask
  | structureMask
  deriving DecidableEq, Repr

/-- A mask over a block-partitioned 1-D object. -/
structure MaskObj where
  kind : MaskKind
  blocks : List SVec
  deriving DecidableEq, Repr

/-- Whether the mask admits position i of a block: a structural mask admits
every stored position, a value mask admits stored positions with a nonzero
value. -/
def maskHolds (kind : MaskKind) (m : SVec) (i : Nat) : Bool :=
  match lookupE i m.entries with
  | none => false
  | some v =>
    match kind with
    | .structureMask => true
    | .valueMask => v != 0

/-- Mask block paired with the n-th data block by the dask elemwise zip. -/
def maskAt (mask : Option MaskObj) (n : Nat) : Option (MaskKind × SVec) :=
  match mask with
  | none => none
  | some m => (m.blocks.get? n).map (fun b => (m.kind, b))

/-- Model of grblas expr.new(dtype=..., mask=...) applied to computed entries:
cast every value to the requested dtype and keep only mask-admitted positions. -/
def applyMaskD (d : Dtype) (mask : Option (MaskKind × SVec)) (es : Entries) : Entries :=
  match mask with
  | none => es.map (fun e => (e.1, castInt d e.2))
  | some mk => (es.map (fun e => (e.1, castInt d e.2))).filter
      (fun e => maskHolds mk.1 mk.2 e.1)

/-- Metadata placeholder of a dask-grblas object or expression: shape kind,
stored-value count and dtype, computable without touching block contents. -/
structure Meta where
  isScalar : Bool
  nvals : Nat
  dtype : Dtype
  deriving DecidableEq, Repr

/-- Model of self._meta.new(dtype=dtype, mask=mask._meta) (expr.py lines
139/143): the meta placeholder holds no values, so the result has the meta
shape and the requested dtype (or the natural dtype when none is requested);
the mask does not change shape or dtype of the meta result. -/
def metaNew (m : Meta) (dtype : Option Dtype) (_mask : Option MaskObj) : Meta :=
  { m with dtype := dtype.getD m.dtype, nvals := 0 }

/-! ## ReductionEngine: chunk functions, combine functions, dask drivers -/

/-- Chunk phase of _reduce (expr.py line 447): x.value.reduce(op).new(dtype):
monoid-fold the stored values of one vector block, then cast. -/
def reduceChunk (op : Int → Int → Int) (d : Dtype) (v : SVec) : Option Int :=
  (reduceVals op (v.entries.map (fun e => e.2))).map (castInt d)

/-- Chunk phase of _reduce_scalar (expr.py line 440): reduce_scalar on one
matrix block. -/
def reduceScalarChunk (op : Int → Int → Int) (d : Dtype) (m : SMat) : Option Int :=
  (reduceVals op (m.entries.map (fun e => e.2.2))).map (castInt d)

/-- Chunk phase of _reduce_axis with axis=(1,) (expr.py line 425):
reduce_rowwise on one matrix block; rows without entries are absent. -/
def reduceRowwiseChunk (op : Int → Int → Int) (d : Dtype) (m : SMat) : SVec :=
  { size := m.nrows, dtype := d,
    entries := (List.range m.nrows).filterMap (fun i =>
      (reduceVals op ((m.entries.filter (fun e => e.1 = i)).map (fun e => e.2.2))).map
        (fun v => (i, castInt d v))) }

/-- Chunk phase of _reduce_axis with axis=(0,) (expr.py line 427):
reduce_columnwise on one matrix block. -/
def reduceColumnwiseChunk (op : Int → Int → Int) (d : Dtype) (m : SMat) : SVec :=
  { size := m.ncols, dtype := d,
    entries := (List.range m.ncols).filterMap (fun j =>
      (reduceVals op ((m.entries.filter (fun e => e.2.1 = j)).map (fun e => e.2.2))).map
        (fun v => (j, castInt d v))) }

/-- Combine phase of reduce and reduce_scalar, _reduce_combine (expr.py line
454): the per-chunk scalar results are unwrapped with .value.value (None for
an empty scalar) and packed with gb.Vector.from_values, which raises TypeError
when a value is None; the packed vector is then reduced once more with op. -/
def reduceCombine (op : Int → Int → Int) (xs : List (Option Int)) : Except Err (Option Int) :=
  if xs.any (fun x => x.isNone) then
    .error (.backendError "from_values: a chunk reduced to an empty scalar (None value)")
  else
    .ok (reduceVals op (xs.filterMap id))

/-- Combine phase of _reduce_axis_combine (expr.py line 430): fold the chunk
vectors pairwise with ewise_add under op. -/
def reduceAxisCombine (op : Int → Int → Int) (xs : List SVec) : SVec :=
  match xs with
  | [] => { size := 0, dtype := .int64, entries := [] }
  | x :: rest => rest.foldl (fun acc y =>
      { size := acc.size, dtype := acc.dtype, entries := unionWith op acc.entries y.entries }) x

/-- Model of da.reduction for GbDelayed._reduce over the blocks of a vector
(expr.py line 124): chunk phase on every block, then the combine; with a
single chunk the aggregate receives the bare chunk result and passes it
through unchanged (the `return x` branch of _reduce_combine). -/
def dgReduceVec (op : Int → Int → Int) (d : Dtype) (blocks : List SVec) :
    Except Err (Option Int) :=
  match blocks.map (reduceChunk op d) with
  | [p] => .ok p
  | ps => reduceCombine op ps

/-- Model of da.reduction for GbDelayed._reduce_scalar over the block grid of
a matrix (expr.py line 112); with several chunks the aggregate receives one
nested list per block row, flattened by the `type(x[0]) is list` branch of
_reduce_combine. -/
def dgReduceScalarMat (op : Int → Int → Int) (d : Dtype) (grid : List (List SMat)) :
    Except Err (Option Int) :=
  match grid.map (fun row => row.map (reduceScalarChunk op d)) with
  | [[p]] => .ok p
  | pss => reduceCombine op pss.flatten

/-- Model of da.reduction for GbDelayed._reduce_along_axis with axis=1
(expr.py line 99): blocks along the contracted column axis are combined per
block row. -/
def dgReduceRowwise (op : Int → Int → Int) (d : Dtype) (grid : List (List SMat)) :
    List SVec :=
  grid.map (fun row =>
    match row.map (reduceRowwiseChunk op d) with
    | [p] => p
    | ps => reduceAxisCombine op ps)

/-- Number of block columns of a block grid. -/
def numBlockCols (g : List (List SMat)) : Nat :=
  (g.head?.map List.length).getD 0

/-- Blocks of the j-th block column of a grid. -/
def gridCol (g : List (List SMat)) (j : Nat) : List SMat :=
  g.filterMap (fun row => row.get? j)

/-- Model of da.reduction for GbDelayed._reduce_along_axis with axis=0:
blocks along the contracted row axis are combined per block column. -/
def dgReduceColumnwise (op : Int → Int → Int) (d : Dtype) (grid : List (List SMat)) :
    List SVec :=
  (List.range (numBlockCols grid)).map (fun j =>
    match (gridCol grid j).map (reduceColumnwiseChunk op d) with
    | [p] => p
    | ps => reduceAxisCombine op ps)

/-! ## Accumulation of reduction results (expr.py lines 469-500) -/

/-- A grblas Scalar: dtype plus an optional stored value (none = empty). -/
structure GScalar where
  dtype : Dtype
  val : Option Int
  deriving DecidableEq, Repr

/-- Python compares the shape tuple of a grblas Vector with the integer 0
(`output.value.shape == 0`, expr.py lines 491/495); a tuple never equals an
integer, so the comparison is always False. -/
def pyShapeEqZero (_size : Nat) : Bool := false

/-- _reduce_accum (expr.py line 469): lift both scalars to length-1 vectors
(an empty scalar becomes an empty vector), ewise_add them under accum with
require_monoid=False, materialise at the dtype of the prior target value, and
extract position 0. -/
def reduceAccum (output reduced : GScalar) (accum : Int → Int → Int) : GScalar :=
  { dtype := output.dtype,
    val := lookupE 0
      ((unionWith accum
          (match output.val with | none => [] | some v => [(0, v)])
          (match reduced.val with | none => [] | some v => [(0, v)])).map
        (fun e => (e.1, castInt output.dtype e.2))) }

/-- _reduce_axis_accum (expr.py line 486): ewise_add the prior target vector
with the freshly reduced vector under accum, materialised at the target
dtype.  The `shape == 0` guards compare a tuple with 0 and are never taken
(pyShapeEqZero). -/
def reduceAxisAccum (output reduced : SVec) (accum : Int → Int → Int) : SVec :=
  if pyShapeEqZero output.size then
    { size := 1, dtype := output.dtype, entries := [] }
  else if pyShapeEqZero reduced.size then
    { size := output.size, dtype := output.dtype,
      entries := (unionWith accum output.entries []).map
        (fun e => (e.1, castInt output.dtype e.2)) }
  else
    { size := output.size, dtype := output.dtype,
      entries := (unionWith accum output.entries reduced.entries).map
        (fun e => (e.1, castInt output.dtype e.2)) }

/-! ## BlockwiseMatMulEngine (expr.py lines 53-97, 594-628) -/

/-- Insert one matrix entry into row-major sorted matrix entries, combining
with op on a collision (key order: row, then column). -/
def minsertWith (op : Int → Int → Int) (i k : Nat) (a : Int) :
    List (Nat × Nat × Int) → List (Nat × Nat × Int)
  | [] => [(i, k, a)]
  | (r, c, b) :: es =>
    if i < r ∨ (i = r ∧ k < c) then (i, k, a) :: (r, c, b) :: es
    else if i = r ∧ k = c then (i, k, op a b) :: es
    else (r, c, b) :: minsertWith op i k a es

/-- Union of two sparse matrix blocks combining common positions with op: the
model of grblas left.ewise_add(right, op) on matrices. -/
def munionWith (op : Int → Int → Int) (xs ys : List (Nat × Nat × Int)) :
    List (Nat × Nat × Int) :=
  xs.foldr (fun e acc => minsertWith op e.1 e.2.1 e.2.2 acc) ys

/-- _matmul2 (expr.py line 594): one block-local product op(a.value @
b.value).new(dtype=dtype) over the semiring (mul, add); position (i, k) is
present when some contracted index j is stored in both blocks, and the block
product is cast to the requested dtype. -/
def blockMatMul (mul add : Int → Int → Int) (d : Dtype) (a b : SMat) : SMat :=
  { nrows := a.nrows, ncols := b.ncols, dtype := d,
    entries := (List.range a.nrows).flatMap (fun i =>
      (List.range b.ncols).filterMap (fun k =>
        (reduceVals add
          ((a.entries.filter (fun e => e.1 = i)).flatMap (fun e =>
            (b.entries.filter (fun f => f.1 = e.2.1 ∧ f.2.1 = k)).map
              (fun f => mul e.2.2 f.2.2)))).map
          (fun v => (i, k, castInt d v)))) }

/-- _sum_by_monoid / sum_by_monoid (expr.py lines 601-628): fold the block
products along the contracted block axis pairwise with ewise_add under the
monoid. -/
def sumByMonoid (add : Int → Int → Int) (xs : List SMat) : SMat :=
  match xs with
  | [] => { nrows := 0, ncols := 0, dtype := .int64, entries := [] }
  | x :: rest => rest.foldl (fun acc y => { acc with entries := munionWith add acc.entries y.entries }) x

/-- Column 0 of a single-column block as a 1-D block.  Modelled from the
spec: step 5 of the slab algorithm (section 4.4) drops the axis synthetically
added for a lifted 1-D right operand; the dask slicing out[..., 0] that
performs it lives outside src. -/
def matCol0 (m : SMat) : SVec :=
  { size := m.nrows, dtype := m.dtype,
    entries := m.entries.filterMap (fun e => if e.2.1 = 0 then some (e.1, e.2.2) else none) }

/-- Row 0 of a single-row block as a 1-D block.  Modelled from the spec:
step 5 of the slab algorithm (section 4.4) for a lifted 1-D left operand;
the dask slicing out[..., 0, :] lives outside src. -/
def matRow0 (m : SMat) : SVec :=
  { size := m.ncols, dtype := m.dtype,
    entries := m.entries.filterMap (fun e => if e.1 = 0 then some (e.2.1, e.2.2) else none) }

/-- GbDelayed._matmul2 for mxv (expr.py line 53): the 1-D right operand is
lifted blockwise to single-column matrices, every (row-block, contracted-
block) pair yields one block-local product at the meta dtype, products
sharing a row block are folded with the monoid, and the synthetic column axis
is dropped. -/
def matmul2Mxv (mul add : Int → Int → Int) (d : Dtype) (A : List (List SMat))
    (v : List SVec) : List SVec :=
  A.map (fun row =>
    matCol0 (sumByMonoid add ((row.zip (v.map asOneColMatrix)).map
      (fun p => blockMatMul mul add d p.1 p.2))))

/-- GbDelayed._matmul2 for vxm (expr.py line 53): the 1-D left operand is
lifted blockwise to single-row matrices, products are formed per (contracted-
block, column-block) pair, folded over the contracted block axis, and the
synthetic row axis is dropped. -/
def matmul2Vxm (mul add : Int → Int → Int) (d : Dtype) (v : List SVec)
    (B : List (List SMat)) : List SVec :=
  (List.range (numBlockCols B)).map (fun k =>
    matRow0 (sumByMonoid add (((v.map asOneRowMatrix).zip B).filterMap
      (fun p => (p.2.get? k).map (fun bk => blockMatMul mul add d p.1 bk)))))

/-! ## Deferred expressions and dispatch (GbDelayed, expr.py lines 10-269) -/

/-- Parent object and argument bundle of a deferred expression, per operation
kind.  The model covers vector-valued elementwise operands; matrix operands
appear in the reduction and multiply kinds. -/
inductive Payload where
  | reduceP (blocks : List SVec) (op : Int → Int → Int)
  | reduceScalarP (grid : List (List SMat)) (op : Int → Int → Int)
  | reduceRowwiseP (grid : List (List SMat)) (op : Int → Int → Int)
  | reduceColumnwiseP (grid : List (List SMat)) (op : Int → Int → Int)
  | applyP (blocks : List SVec) (f : Int → Int)
  | ewiseAddP (x : List SVec) (y : List SVec) (op : Int → Int → Int)
  | ewiseMultP (x : List SVec) (y : List SVec) (op : Int → Int → Int)
  | mxvP (A : List (List SMat)) (v : List SVec) (mul : Int → Int → Int) (add : Int → Int → Int)
  | vxmP (v : List SVec) (B : List (List SMat)) (mul : Int → Int → Int) (add : Int → Int → Int)

/-- A deferred expression: operation name (a string, as in the source),
parent/argument bundle, and metadata placeholder. -/
structure GbDelayed where
  method_name : String
  payload : Payload
  meta : Meta

/-- A materialised dask-grblas value: scalar, block-partitioned vector, or
block-partitioned matrix. -/
inductive GbObj where
  | scalarO (s : GScalar)
  | vectorO (blocks : List SVec)
  | matrixO (grid : List (List SMat))
  deriving DecidableEq, Repr

/-- A dask-grblas container: its current storage plus its metadata. -/
structure BObj where
  value : GbObj
  meta : Meta

/-- GbDelayed.new (expr.py line 136): materialise the deferred expression by
operation name into a fresh object.  Reduction kinds run the two-phase
reduction at the meta dtype; elementwise kinds map _expr_new over the blocks,
applying dtype and mask per block; multiply kinds run _matmul2 (the TODO at
line 168 leaves the mask unhandled there); an unknown name raises
ValueError(method_name). -/
def GbDelayed.newE (e : GbDelayed) (dtype : Option Dtype) (mask : Option MaskObj) :
    Except Err GbObj :=
  if e.method_name = "reduce" then
    match e.payload with
    | .reduceP blocks op =>
      (dgReduceVec op (metaNew e.meta dtype mask).dtype blocks).map
        (fun v => .scalarO ⟨(metaNew e.meta dtype mask).dtype, v⟩)
    | _ => .error (.backendError "bad arguments")
  else if e.method_name = "reduce_scalar" then
    match e.payload with
    | .reduceScalarP grid op =>
      (dgReduceScalarMat op (metaNew e.meta dtype mask).dtype grid).map
        (fun v => .scalarO ⟨(metaNew e.meta dtype mask).dtype, v⟩)
    | _ => .error (.backendError "bad arguments")
  else if e.method_name = "reduce_rowwise" then
    match e.payload with
    | .reduceRowwiseP grid op =>
      .ok (.vectorO (dgReduceRowwise op (metaNew e.meta dtype mask).dtype grid))
    | _ => .error (.backendError "bad arguments")
  else if e.method_name = "reduce_columnwise" then
    match e.payload with
    | .reduceColumnwiseP grid op =>
      .ok (.vectorO (dgReduceColumnwise op (metaNew e.meta dtype mask).dtype grid))
    | _ => .error (.backendError "bad arguments")
  else if e.method_name = "apply" ∨ e.method_name = "ewise_add" ∨ e.method_name = "ewise_mult" then
    match e.payload with
    | .applyP blocks f =>
      .ok (.vectorO (blocks.enum.map (fun p =>
        { size := p.2.size, dtype := (metaNew e.meta dtype mask).dtype,
          entries := applyMaskD (metaNew e.meta dtype mask).dtype (maskAt mask p.1)
            (p.2.entries.map (fun q => (q.1, f q.2))) })))
    | .ewiseAddP x y op =>
      .ok (.vectorO ((x.zip y).enum.map (fun p =>
        { size := p.2.1.size, dtype := (metaNew e.meta dtype mask).dtype,
          entries := applyMaskD (metaNew e.meta dtype mask).dtype (maskAt mask p.1)
            (unionWith op p.2.1.entries p.2.2.entries) })))
    | .ewiseMultP x y op =>
      .ok (.vectorO ((x.zip y).enum.map (fun p =>
        { size := p.2.1.size, dtype := (metaNew e.meta dtype mask).dtype,
          entries := applyMaskD (metaNew e.meta dtype mask).dtype (maskAt mask p.1)
            (interWith op p.2.1.entries p.2.2.entries) })))
    | _ => .error (.backendError "bad arguments")
  else if e.method_name = "vxm" ∨ e.method_name = "mxv" then
    match e.payload with
    | .mxvP A v mul add =>
      .ok (.vectorO (matmul2Mxv mul add (metaNew e.meta dtype mask).dtype A v))
    | .vxmP v B mul add =>
      .ok (.vectorO (matmul2Vxm mul add (metaNew e.meta dtype mask).dtype v B))
    | _ => .error (.backendError "bad arguments")
  else
    .error (.unsupportedOperation e.method_name)

/-- Per-block masked, accumulated, replace-qualified write into existing
storage (updating.value(accum=accum, mask=mask, replace=replace) << expr).
Modelled from the spec: the block-local qualified write is performed by the
grblas backend (section 4.2 and the Mask/Replace glossary entries): inside
the mask the target takes the accumulated value, outside the mask the target
is cleared when replace is set and kept otherwise. -/
def writeMasked (cur : SVec) (ex : Entries) (mask : Option (MaskKind × SVec))
    (accum : Option (Int → Int → Int)) (replace : Bool) : SVec :=
  { cur with entries := (List.range cur.size).filterMap (fun i =>
      if (match mask with
          | none => true
          | some mk => maskHolds mk.1 mk.2 i) then
        (match accum with
         | none => lookupE i ex
         | some acc =>
           match lookupE i cur.entries, lookupE i ex with
           | none, none => none
           | some a, none => some a
           | none, some b => some b
           | some a, some b => some (acc a b)).map
          (fun v => (i, castInt cur.dtype v))
      else if replace then none
      else (lookupE i cur.entries).map (fun v => (i, v))) }

/-- Elementwise branch of GbDelayed._update (expr.py lines 226-257): with no
mask and no accumulator each block is overwritten with the freshly computed
expression (_update_expr), otherwise each block receives a one-pass masked
accumulated write (_update_expr_full). -/
def elemUpdateV (cur : List SVec) (ex : List Entries) (mask : Option MaskObj)
    (accum : Option (Int → Int → Int)) (replace : Option Bool) (meta : Meta) :
    Except Err BObj :=
  match mask, accum with
  | none, none =>
    .ok { value := .vectorO ((cur.zip ex).map (fun p =>
            { p.1 with entries := p.2.map (fun q => (q.1, castInt p.1.dtype q.2)) })),
          meta := meta }
  | _, _ =>
    .ok { value := .vectorO ((cur.zip ex).enum.map (fun p =>
            writeMasked p.2.1 p.2.2 (maskAt mask p.1) accum (replace.getD false))),
          meta := meta }

/-- GbDelayed._update (expr.py line 174): write the deferred expression into
existing storage.  The target meta is first updated against the expression
meta (a meta-only validation: modelled from the spec, section 4.2, the typed
payloads of this embedding enforce the shape compatibility it checks) and the
assertion `updating._meta._is_scalar or updating._meta.nvals == 0` is
checked.  Reduction kinds clear the meta, reduce at the target dtype and,
when accum is set, combine with the prior value through reduceAccum /
reduceAxisAccum; elementwise kinds go through elemUpdateV; multiply kinds
materialise the unmasked product and write it back through the standard
qualified write; an unknown name raises ValueError(method_name). -/
def GbDelayed.updateE (e : GbDelayed) (updating : BObj) (mask : Option MaskObj)
    (accum : Option (Int → Int → Int)) (replace : Option Bool) : Except Err BObj :=
  if updating.meta.isScalar = true ∨ updating.meta.nvals = 0 then
    if e.method_name = "reduce" then
      match e.payload, updating.value with
      | .reduceP blocks op, .scalarO cur =>
        match dgReduceVec op updating.meta.dtype blocks with
        | .error err => .error err
        | .ok fresh =>
          match accum with
          | none => .ok { value := .scalarO ⟨updating.meta.dtype, fresh⟩,
                          meta := { updating.meta with nvals := 0 } }
          | some acc => .ok { value := .scalarO (reduceAccum cur ⟨updating.meta.dtype, fresh⟩ acc),
                              meta := { updating.meta with nvals := 0 } }
      | _, _ => .error (.backendError "bad arguments")
    else if e.method_name = "reduce_scalar" then
      match e.payload, updating.value with
      | .reduceScalarP grid op, .scalarO cur =>
        match dgReduceScalarMat op updating.meta.dtype grid with
        | .error err => .error err
        | .ok fresh =>
          match accum with
          | none => .ok { value := .scalarO ⟨updating.meta.dtype, fresh⟩,
                          meta := { updating.meta with nvals := 0 } }
          | some acc => .ok { value := .scalarO (reduceAccum cur ⟨updating.meta.dtype, fresh⟩ acc),
                              meta := { updating.meta with nvals := 0 } }
      | _, _ => .error (.backendError "bad arguments")
    else if e.method_name = "reduce_rowwise" then
      match e.payload, updating.value with
      | .reduceRowwiseP grid op, .vectorO cur =>
        match accum with
        | none => .ok { value := .vectorO (dgReduceRowwise op updating.meta.dtype grid),
                        meta := { updating.meta with nvals := 0 } }
        | some acc => .ok (BObj.mk
            (.vectorO ((cur.zip (dgReduceRowwise op updating.meta.dtype grid)).map
              (fun p => reduceAxisAccum p.1 p.2 acc)))
            { updating.meta with nvals := 0 })
      | _, _ => .error (.backendError "bad arguments")
    else if e.method_name = "reduce_columnwise" then
      match e.payload, updating.value with
      | .reduceColumnwiseP grid op, .vectorO cur =>
        match accum with
        | none => .ok { value := .vectorO (dgReduceColumnwise op updating.meta.dtype grid),
                        meta := { updating.meta with nvals := 0 } }
        | some acc => .ok (BObj.mk
            (.vectorO ((cur.zip (dgReduceColumnwise op updating.meta.dtype grid)).map
              (fun p => reduceAxisAccum p.1 p.2 acc)))
            { updating.meta with nvals := 0 })
      | _, _ => .error (.backendError "bad arguments")
    else if e.method_name = "apply" ∨ e.method_name = "ewise_add" ∨ e.method_name = "ewise_mult" then
      match e.payload, updating.value with
      | .applyP blocks f, .vectorO cur =>
        elemUpdateV cur (blocks.map (fun b => b.entries.map (fun q => (q.1, f q.2))))
          mask accum replace updating.meta
      | .ewiseAddP x y op, .vectorO cur =>
        elemUpdateV cur ((x.zip y).map (fun p => unionWith op p.1.entries p.2.entries))
          mask accum replace updating.meta
      | .ewiseMultP x y op, .vectorO cur =>
        elemUpdateV cur ((x.zip y).map (fun p => interWith op p.1.entries p.2.entries))
          mask accum replace updating.meta
      | _, _ => .error (.backendError "bad arguments")
    else if e.method_name = "vxm" ∨ e.method_name = "mxv" then
      match e.payload, updating.value with
      | .mxvP A v mul add, .vectorO cur =>
        .ok (BObj.mk
          (.vectorO ((cur.zip (matmul2Mxv mul add updating.meta.dtype A v)).enum.map
            (fun p => writeMasked p.2.1 p.2.2.entries (maskAt mask p.1) accum
              (replace.getD false))))
          updating.meta)
      | .vxmP v B mul add, .vectorO cur =>
        .ok (BObj.mk
          (.vectorO ((cur.zip (matmul2Vxm mul add updating.meta.dtype v B)).enum.map
            (fun p => writeMasked p.2.1 p.2.2.entries (maskAt mask p.1) accum
              (replace.getD false))))
          updating.meta)
      | _, _ => .error (.backendError "bad arguments")
    else
      .error (.unsupportedOperation e.method_name)
  else
    .error .usageError

/-! ## Updater (expr.py lines 272-305) -/

/-- A write-qualified destination: target object, optional mask, optional
accumulator, and the replace attribute (None when constructed without a
mask). -/
structure UpdaterS where
  parent : BObj
  mask : Option MaskObj
  accum : Option (Int → Int → Int)
  replace : Option Bool

/-- Updater.__init__ (expr.py line 273): self.replace is set to None when no
mask is given and to the replace argument otherwise; the construction then
calls parent._meta(mask=..., accum=..., replace=...).  That meta call is
executed by the grblas backend, which is not under src; modelled from the
spec (section 4.2): constructing without a mask rejects any non-default
replace as a usage error. -/
def Updater.initE (parent : BObj) (mask : Option MaskObj)
    (accum : Option (Int → Int → Int)) (replace : Bool) : Except Err UpdaterS :=
  if mask.isNone && replace then .error .usageError
  else .ok { parent := parent, mask := mask, accum := accum,
             replace := match mask with | none => none | some _ => some replace }

/-- Updater.update (expr.py line 296): with no mask and no accumulator the
write is delegated to the target's plain update (base.py, not under src;
modelled from the spec, section 4.2: an unqualified writeInto); otherwise the
target meta is validated and, for a scalar target, only the accumulator is
forwarded to GbDelayed._update (mask and replace are dropped), while a
non-scalar target receives all three qualifiers. -/
def Updater.updateE (u : UpdaterS) (e : GbDelayed) : Except Err BObj :=
  if u.mask.isNone && u.accum.isNone then
    GbDelayed.updateE e u.parent none none none
  else if u.parent.meta.isScalar then
    GbDelayed.updateE e u.parent none u.accum none
  else
    GbDelayed.updateE e u.parent u.mask u.accum u.replace

/-! ## LazyIndexer: Extractor chains and AmbiguousAssignOrExtract -/

/-- A chain of lazy index levels over one block, as built by map_blocks of
Extractor followed by dask-level getitem layers: the base Extractor has
index=None and wraps the block; every further level wraps the previous
Extractor with one index. -/
inductive Extr where
  | base (blk : SVec)
  | level (inner : Extr) (idx : List Nat)

/-- The index levels of a chain, outermost first: the list collected by the
while loop of _extractor_new (expr.py lines 309-313). -/
def Extr.indices : Extr → List (List Nat)
  | .base _ => []
  | .level e i => i :: e.indices

/-- The raw block at the bottom of the chain (the final inner.inner at
expr.py line 314). -/
def Extr.baseBlk : Extr → SVec
  | .base b => b
  | .level e _ => e.baseBlk

/-- Extraction of the positions listed in l from a block:
inner.value[index]. -/
def extractIdx (v : SVec) (l : List Nat) : SVec :=
  { size := l.length, dtype := v.dtype,
    entries := l.enum.filterMap (fun p => (lookupE p.2 v.entries).map (fun x => (p.1, x))) }

/-- _extractor_new (expr.py line 308): walk the chain collecting index
levels; zero levels duplicate the block (dup with dtype and mask), one level
performs one combined indexed extraction, and two or more levels raise
NotImplementedError.  The index model is already unwrapped from a length-1
tuple (the `type(index) is tuple` normalisation at line 324). -/
def extractorNew (x : Extr) (dtype : Option Dtype) (mask : Option (MaskKind × SVec)) :
    Except Err SVec :=
  match x.indices with
  | [] =>
    .ok { size := x.baseBlk.size, dtype := dtype.getD x.baseBlk.dtype,
          entries := applyMaskD (dtype.getD x.baseBlk.dtype) mask x.baseBlk.entries }
  | [i] =>
    .ok { size := (extractIdx x.baseBlk i).size, dtype := dtype.getD x.baseBlk.dtype,
          entries := applyMaskD (dtype.getD x.baseBlk.dtype) mask (extractIdx x.baseBlk i).entries }
  | _ => .error (.unsupportedOperation "indices")

/-- An AmbiguousAssignOrExtract over a single-block 1-D parent: the parent
metadata placeholder, the parent block, and one recorded index. -/
structure AAES where
  parentMeta : Meta
  parentBlock : SVec
  index : List Nat

/-- AmbiguousAssignOrExtract.new (expr.py line 349): with a mask the call
first asserts that the parent metadata placeholder holds zero values, then
(as without a mask) maps Extractor over the blocks, applies the one recorded
index level and resolves each block with _extractor_new. -/
def AAE.newE (a : AAES) (dtype : Option Dtype) (mask : Option (MaskKind × SVec)) :
    Except Err SVec :=
  match mask with
  | some mk =>
    if a.parentMeta.nvals ≠ 0 then .error .usageError
    else extractorNew (Extr.level (Extr.base a.parentBlock) a.index) dtype (some mk)
  | none => extractorNew (Extr.level (Extr.base a.parentBlock) a.index) dtype none

/-- The operation names known to GbDelayed.new and GbDelayed._update
(expr.py lines 147-171 and 179-263). -/
def knownMethods : List String :=
  ["reduce", "reduce_scalar", "reduce_rowwise", "reduce_columnwise",
   "apply", "ewise_add", "ewise_mult", "vxm", "mxv"]

/-- Decidable equality on materialisation results. -/
instance {ε α : Type} [DecidableEq ε] [DecidableEq α] : DecidableEq (Except ε α) := fun a b =>
  match a, b with
  | .ok x, .ok y =>
    if h : x = y then .isTrue (by rw [h]) else .isFalse (fun hh => h (Except.ok.inj hh))
  | .error x, .error y =>
    if h : x = y then .isTrue (by rw [h]) else .isFalse (fun hh => h (Except.error.inj hh))
  | .ok _, .error _ => .isFalse (fun hh => Except.noConfusion hh)
  | .error _, .ok _ => .isFalse (fun hh => Except.noConfusion hh)

/-! ## Helper lemmas -/

theorem map_pair_eta (l : Entries) : l.map (fun e => (e.1, e.2)) = l := by
  induction l with
  | nil => rfl
  | cons a t ih => simp [List.map, ih]

theorem map_cast_id (d : Dtype) (l : Entries) (h : ∀ e ∈ l, castInt d e.2 = e.2) :
    l.map (fun e => (e.1, castInt d e.2)) = l := by
  induction l with
  | nil => rfl
  | cons a t ih =>
    obtain ⟨i, x⟩ := a
    have ha : castInt d x = x := h (i, x) (List.mem_cons_self _ t)
    simp only [List.map_cons, ha]
    exact congrArg _ (ih (fun e he => h e (List.mem_cons_of_mem _ he)))

theorem map_fst_lt_one (l : Entries) (h : ∀ e ∈ l, e.1 < 1) :
    l.map (fun e => ((0 : Nat), e.2)) = l := by
  induction l with
  | nil => rfl
  | cons a t ih =>
    obtain ⟨i, x⟩ := a
    have ha : i = 0 := Nat.lt_one_iff.mp (h (i, x) (List.mem_cons_self _ t))
    subst ha
    simp only [List.map_cons]
    exact congrArg _ (ih (fun e he => h e (List.mem_cons_of_mem _ he)))

/-! ## Claim theorems (part 1) -/

/-- C3: lifting a 1-D sparse block to a single-row matrix (asOneRowMatrix) or
a single-column matrix (asOneColMatrix) and converting back with asVector
yields a value equal to the original block, with the same indices and values.
The hypothesis states well-formedness of the block: every stored index is in
range. -/
theorem C3_lift_roundtrip (v : SVec) (hix : ∀ e ∈ v.entries, e.1 < v.size) :
    asVector (asOneRowMatrix v) = .ok v ∧ asVector (asOneColMatrix v) = .ok v := by
  obtain ⟨size, dtype, entries⟩ := v
  simp only at hix
  constructor
  · simp [asVector, asOneRowMatrix, List.map_map, Function.comp, map_pair_eta]
  · by_cases h1 : size = 1
    · subst h1
      simp [asVector, asOneColMatrix, List.map_map, Function.comp_def,
        map_fst_lt_one entries hix]
    · simp [asVector, asOneColMatrix, List.map_map, Function.comp_def, h1, map_pair_eta]

/-- C3 witness: the roundtrip evaluated at a concrete well-formed block. -/
theorem C3_lift_roundtrip_witness :
    (∀ e ∈ (⟨2, .int64, [(0, 3), (1, 5)]⟩ : SVec).entries,
        e.1 < (⟨2, .int64, [(0, 3), (1, 5)]⟩ : SVec).size)
    ∧ asVector (asOneRowMatrix ⟨2, .int64, [(0, 3), (1, 5)]⟩)
        = .ok ⟨2, .int64, [(0, 3), (1, 5)]⟩
    ∧ asVector (asOneColMatrix ⟨2, .int64, [(0, 3), (1, 5)]⟩)
        = .ok ⟨2, .int64, [(0, 3), (1, 5)]⟩ :=
  ⟨by decide, (C3_lift_roundtrip _ (by decide)).1, (C3_lift_roundtrip _ (by decide)).2⟩

/-- C10: constructing an Extractor over an inner block stores the dtype object
in the ndim attribute (expr.py line 337 assigns inner.dtype to self.ndim), so
ndim is never a natural number and in particular never the rank 1 or 2. -/
theorem C10_extractor_ndim_is_dtype (b : InnerBlock) :
    (Extractor.initE b).ndim = PyAttr.ofDtype b.dtype
    ∧ ∀ n : Nat, (Extractor.initE b).ndim ≠ PyAttr.ofNat n :=
  ⟨rfl, fun _ h => PyAttr.noConfusion h⟩

/-- C1: the claim states that reducing a block-partitioned object with any
block grid yields the same scalar as reducing an unpartitioned copy with the
same monoid.  The code violates this: when one block holds no values, its
chunk reduction is an empty scalar, and _reduce_combine passes its None value
to gb.Vector.from_values, which raises; the unpartitioned copy reduces
normally.  This theorem evaluates both sides at the failing input: a size-2
vector with the single entry 1 at index 0 under the plus monoid, split into
two size-1 blocks (the second block empty) versus kept as one block. -/
theorem C1_partitioned_reduce_empty_block_diverges :
    GbDelayed.newE
      { method_name := "reduce",
        payload := .reduceP [⟨1, .int64, [(0, 1)]⟩, ⟨1, .int64, []⟩] (fun a b => a + b),
        meta := { isScalar := true, nvals := 0, dtype := .int64 } } none none
      = .error (.backendError "from_values: a chunk reduced to an empty scalar (None value)")
    ∧ GbDelayed.newE
      { method_name := "reduce",
        payload := .reduceP [⟨2, .int64, [(0, 1)]⟩] (fun a b => a + b),
        meta := { isScalar := true, nvals := 0, dtype := .int64 } } none none
      = .ok (.scalarO ⟨.int64, some 1⟩) :=
  ⟨rfl, rfl⟩

/-- C2 counterexample: the claim states that for mxv/vxm the supplied mask
and dtype have no effect on materialisation.  The dtype does have an effect:
it reaches _matmul2 through meta.dtype and every block product is cast to it.
Materialising the same 1-block mxv expression (1 stored entry 1 in the matrix,
entry 2 in the vector, plus-times semiring) with dtype boolean yields the
value 1 at dtype boolean, while materialising with no dtype yields the value
2 at dtype int64. -/
theorem C2_dtype_affects_mxv_result :
    GbDelayed.newE
      { method_name := "mxv",
        payload := .mxvP [[⟨1, 1, .int64, [(0, 0, 1)]⟩]] [⟨1, .int64, [(0, 2)]⟩]
          (fun a b => a * b) (fun a b => a + b),
        meta := { isScalar := false, nvals := 0, dtype := .int64 } } (some .boolean) none
    ≠ GbDelayed.newE
      { method_name := "mxv",
        payload := .mxvP [[⟨1, 1, .int64, [(0, 0, 1)]⟩]] [⟨1, .int64, [(0, 2)]⟩]
          (fun a b => a * b) (fun a b => a + b),
        meta := { isScalar := false, nvals := 0, dtype := .int64 } } none none := by
  decide

/-- C2 (amended): for every deferred mxv or vxm expression and every dtype
argument, the supplied mask has no effect on materialisation (the result is
identical to materialising with no mask at the same dtype): the multiply
always yields the unmasked product, at the requested dtype. -/
theorem C2_mask_has_no_effect_on_multiply (p : Payload) (meta : Meta) (d : Option Dtype)
    (m : MaskObj) :
    GbDelayed.newE ⟨"mxv", p, meta⟩ d (some m) = GbDelayed.newE ⟨"mxv", p, meta⟩ d none
    ∧ GbDelayed.newE ⟨"vxm", p, meta⟩ d (some m) = GbDelayed.newE ⟨"vxm", p, meta⟩ d none := by
  constructor <;> cases p <;> rfl

/-- C2 witness: the mask-independence of multiply materialisation applied at
a concrete expression, dtype and mask. -/
theorem C2_mask_has_no_effect_on_multiply_witness :
    GbDelayed.newE
      ⟨"mxv", .mxvP [[⟨1, 1, .int64, [(0, 0, 1)]⟩]] [⟨1, .int64, [(0, 2)]⟩]
        (fun a b => a * b) (fun a b => a + b), ⟨false, 0, .int64⟩⟩
      none (some ⟨.structureMask, [⟨1, .int64, [(0, 1)]⟩]⟩)
    = GbDelayed.newE
      ⟨"mxv", .mxvP [[⟨1, 1, .int64, [(0, 0, 1)]⟩]] [⟨1, .int64, [(0, 2)]⟩]
        (fun a b => a * b) (fun a b => a + b), ⟨false, 0, .int64⟩⟩
      none none :=
  (C2_mask_has_no_effect_on_multiply
    (.mxvP [[⟨1, 1, .int64, [(0, 0, 1)]⟩]] [⟨1, .int64, [(0, 2)]⟩]
      (fun a b => a * b) (fun a b => a + b))
    ⟨false, 0, .int64⟩ none ⟨.structureMask, [⟨1, .int64, [(0, 1)]⟩]⟩).1

/-- C4: for every deferred expression whose operation name is not one of the
known kinds, both materialisation (new) and writing into a target (_update)
fail with the unknown-operation error ValueError(method_name), provided the
target passes the entry assertion of _update. -/
theorem C4_unknown_operation_fails (name : String) (p : Payload) (meta : Meta)
    (d : Option Dtype) (m : Option MaskObj) (tgt : BObj) (mask : Option MaskObj)
    (accum : Option (Int → Int → Int)) (replace : Option Bool)
    (hname : name ∉ knownMethods)
    (htgt : tgt.meta.isScalar = true ∨ tgt.meta.nvals = 0) :
    GbDelayed.newE ⟨name, p, meta⟩ d m = .error (.unsupportedOperation name)
    ∧ GbDelayed.updateE ⟨name, p, meta⟩ tgt mask accum replace
        = .error (.unsupportedOperation name) := by
  simp only [knownMethods, List.mem_cons, List.not_mem_nil, or_false, not_or] at hname
  obtain ⟨h1, h2, h3, h4, h5, h6, h7, h8, h9⟩ := hname
  constructor
  · simp [GbDelayed.newE, h1, h2, h3, h4, h5, h6, h7, h8, h9]
  · simp only [GbDelayed.updateE]
    rw [if_pos htgt]
    simp [h1, h2, h3, h4, h5, h6, h7, h8, h9]

/-- C4 witness: the theorem applied to the concrete unknown name
"frobnicate" with a concrete payload and a concrete valid target. -/
theorem C4_unknown_operation_fails_witness :
    ("frobnicate" ∉ knownMethods)
    ∧ ((⟨.scalarO ⟨.int64, none⟩, ⟨true, 0, .int64⟩⟩ : BObj).meta.isScalar = true
        ∨ (⟨.scalarO ⟨.int64, none⟩, ⟨true, 0, .int64⟩⟩ : BObj).meta.nvals = 0)
    ∧ GbDelayed.newE ⟨"frobnicate", .reduceP [] (fun a b => a + b), ⟨true, 0, .int64⟩⟩
        none none = .error (.unsupportedOperation "frobnicate")
    ∧ GbDelayed.updateE ⟨"frobnicate", .reduceP [] (fun a b => a + b), ⟨true, 0, .int64⟩⟩
        ⟨.scalarO ⟨.int64, none⟩, ⟨true, 0, .int64⟩⟩ none none none
        = .error (.unsupportedOperation "frobnicate") :=
  ⟨by decide, by decide,
   (C4_unknown_operation_fails "frobnicate" (.reduceP [] (fun a b => a + b))
      ⟨true, 0, .int64⟩ none none ⟨.scalarO ⟨.int64, none⟩, ⟨true, 0, .int64⟩⟩
      none none none (by decide) (by decide)).1,
   (C4_unknown_operation_fails "frobnicate" (.reduceP [] (fun a b => a + b))
      ⟨true, 0, .int64⟩ none none ⟨.scalarO ⟨.int64, none⟩, ⟨true, 0, .int64⟩⟩
      none none none (by decide) (by decide)).2⟩

/-- C5: constructing an Updater with a mask and no explicit replace argument
(Python default false) yields the attribute replace = false; constructing
without a mask but with a non-default replace is rejected as a usage error;
and every successfully constructed mask-less Updater has replace left unset
(None). -/
theorem C5_updater_replace_handling :
    (∀ (pr : BObj) (m : MaskObj) (a : Option (Int → Int → Int)),
        Updater.initE pr (some m) a false
          = .ok { parent := pr, mask := some m, accum := a, replace := some false })
    ∧ (∀ (pr : BObj) (a : Option (Int → Int → Int)),
        Updater.initE pr none a true = .error .usageError)
    ∧ (∀ (pr : BObj) (a : Option (Int → Int → Int)) (r : Bool) (u : UpdaterS),
        Updater.initE pr none a r = .ok u → u.replace = none) := by
  refine ⟨fun pr m a => rfl, fun pr a => rfl, fun pr a r u h => ?_⟩
  cases r
  · simp only [Updater.initE, Option.isNone_none, Bool.true_and, if_neg Bool.false_ne_true,
      Except.ok.injEq] at h
    rw [← h]
  · simp [Updater.initE] at h

/-- C5 witness: the three parts of the theorem applied at concrete inputs. -/
theorem C5_updater_replace_handling_witness :
    (Updater.initE ⟨.scalarO ⟨.int64, none⟩, ⟨true, 0, .int64⟩⟩
        (some ⟨.structureMask, []⟩) none false
      = .ok { parent := ⟨.scalarO ⟨.int64, none⟩, ⟨true, 0, .int64⟩⟩,
              mask := some ⟨.structureMask, []⟩, accum := none, replace := some false })
    ∧ (Updater.initE ⟨.scalarO ⟨.int64, none⟩, ⟨true, 0, .int64⟩⟩ none none true
        = .error .usageError)
    ∧ (Updater.initE ⟨.scalarO ⟨.int64, none⟩, ⟨true, 0, .int64⟩⟩ none none false
        = .ok ⟨⟨.scalarO ⟨.int64, none⟩, ⟨true, 0, .int64⟩⟩, none, none, none⟩)
    ∧ (⟨⟨.scalarO ⟨.int64, none⟩, ⟨true, 0, .int64⟩⟩, none, none, none⟩ : UpdaterS).replace
        = none :=
  ⟨C5_updater_replace_handling.1 _ _ none,
   C5_updater_replace_handling.2.1 _ none,
   rfl,
   C5_updater_replace_handling.2.2 ⟨.scalarO ⟨.int64, none⟩, ⟨true, 0, .int64⟩⟩ none false
     ⟨⟨.scalarO ⟨.int64, none⟩, ⟨true, 0, .int64⟩⟩, none, none, none⟩ rfl⟩

/-- C6: resolving a chained lazy-indexing expression as a read collects at
most one non-trivial index level: a chain with two or more recorded index
levels fails with NotImplementedError in _extractor_new, it is not silently
truncated. -/
theorem C6_two_index_levels_fail (x : Extr) (d : Option Dtype)
    (m : Option (MaskKind × SVec)) (h : 2 ≤ x.indices.length) :
    extractorNew x d m = .error (.unsupportedOperation "indices") := by
  rcases hx : x.indices with _ | ⟨a, tail⟩
  · rw [hx] at h
    simp at h
  · rcases tail with _ | ⟨b, rest⟩
    · rw [hx] at h
      simp at h
    · simp [extractorNew, hx]

/-- C6 witness: a chain with two recorded index levels over a concrete
block. -/
theorem C6_two_index_levels_fail_witness :
    2 ≤ (Extr.level (Extr.level (Extr.base ⟨2, .int64, [(0, 1)]⟩) [0]) [1]).indices.length
    ∧ extractorNew (Extr.level (Extr.level (Extr.base ⟨2, .int64, [(0, 1)]⟩) [0]) [1])
        none none = .error (.unsupportedOperation "indices") :=
  ⟨by decide,
   C6_two_index_levels_fail (Extr.level (Extr.level (Extr.base ⟨2, .int64, [(0, 1)]⟩) [0]) [1])
     none none (by decide)⟩

/-- C7: materialising an indexed extraction with a mask requires the parent
destination-shape placeholder to hold zero values; when it holds one or more
values, AmbiguousAssignOrExtract.new fails the assertion (a usage error) and
performs no extraction. -/
theorem C7_masked_extract_requires_empty_placeholder (a : AAES) (d : Option Dtype)
    (mk : MaskKind × SVec) (h : 1 ≤ a.parentMeta.nvals) :
    AAE.newE a d (some mk) = .error .usageError := by
  simp only [AAE.newE]
  rw [if_pos (by omega)]

/-- C7 witness: a concrete parent whose metadata placeholder holds one
value. -/
theorem C7_masked_extract_requires_empty_placeholder_witness :
    1 ≤ (AAES.mk ⟨false, 1, .int64⟩ ⟨1, .int64, []⟩ [0]).parentMeta.nvals
    ∧ AAE.newE (AAES.mk ⟨false, 1, .int64⟩ ⟨1, .int64, []⟩ [0]) none
        (some (.structureMask, ⟨1, .int64, [(0, 1)]⟩)) = .error .usageError :=
  ⟨by decide,
   C7_masked_extract_requires_empty_placeholder (AAES.mk ⟨false, 1, .int64⟩ ⟨1, .int64, []⟩ [0])
     none (.structureMask, ⟨1, .int64, [(0, 1)]⟩) (by decide)⟩

/-- C8: when a reduction is written into a target with an accumulation
operator, the freshly reduced value is combined with the prior target value
using that operator (reduceAccum lifts scalars to length-1 vectors and unions
them under accum); an empty prior value acts as the identity of the operator,
so the result equals the freshly reduced value, both for the scalar
accumulator reduceAccum and for the per-axis accumulator reduceAxisAccum; the
accumulators are total functions, so an empty prior value never raises.  The
well-formedness hypotheses state that the fresh value is stored at the target
dtype (which _update guarantees, since the reduction runs at the target meta
dtype). -/
theorem C8_reduce_accum_combines_and_identity :
    (∀ (out red : GScalar) (acc : Int → Int → Int),
        reduceAccum out red acc
          = ⟨out.dtype,
             match out.val, red.val with
             | none, none => none
             | some a, none => some (castInt out.dtype a)
             | none, some b => some (castInt out.dtype b)
             | some a, some b => some (castInt out.dtype (acc a b))⟩)
    ∧ (∀ (out red : GScalar) (acc : Int → Int → Int),
        out.val = none → red.dtype = out.dtype →
        (∀ v ∈ red.val, castInt out.dtype v = v) →
        reduceAccum out red acc = red)
    ∧ (∀ (out red : SVec) (acc : Int → Int → Int),
        out.entries = [] → out.size = red.size → red.dtype = out.dtype →
        (∀ e ∈ red.entries, castInt out.dtype e.2 = e.2) →
        reduceAxisAccum out red acc = red) := by
  refine ⟨?_, ?_, ?_⟩
  · intro out red acc
    obtain ⟨od, ov⟩ := out
    obtain ⟨rd, rv⟩ := red
    cases ov <;> cases rv <;> rfl
  · intro out red acc h1 h2 h3
    obtain ⟨od, ov⟩ := out
    obtain ⟨rd, rv⟩ := red
    simp only at h1 h2 h3
    subst h1
    subst h2
    cases rv with
    | none => rfl
    | some v =>
      have hv := h3 v rfl
      simp [reduceAccum, unionWith, insertWith, lookupE, hv]
  · intro out red acc h1 h2 h3 h4
    obtain ⟨os, od, oe⟩ := out
    obtain ⟨rs, rd, re⟩ := red
    simp only at h1 h2 h3 h4
    subst h1
    subst h2
    subst h3
    simp [reduceAxisAccum, pyShapeEqZero, unionWith, map_cast_id _ re h4]

/-- C8 witness: the scalar and axis accumulators applied with an empty prior
target and a concrete fresh value return the fresh value unchanged. -/
theorem C8_reduce_accum_combines_and_identity_witness :
    reduceAccum ⟨.int64, none⟩ ⟨.int64, some 5⟩ (fun a b => a + b) = ⟨.int64, some 5⟩
    ∧ reduceAxisAccum ⟨2, .int64, []⟩ ⟨2, .int64, [(1, 5)]⟩ (fun a b => a + b)
        = ⟨2, .int64, [(1, 5)]⟩ :=
  ⟨C8_reduce_accum_combines_and_identity.2.1 ⟨.int64, none⟩ ⟨.int64, some 5⟩ _
     rfl rfl (by intro v hv; cases hv; rfl),
   C8_reduce_accum_combines_and_identity.2.2 ⟨2, .int64, []⟩ ⟨2, .int64, [(1, 5)]⟩ _
     rfl rfl rfl (by decide)⟩

/-- C9: for every Updater whose target is a scalar and whose mask or
accumulator is set, update forwards only the accumulator to the qualified
write: the supplied mask and replace qualifier are dropped (neither applied
nor rejected) before the expression is written into the scalar target. -/
theorem C9_scalar_target_drops_mask_and_replace (u : UpdaterS) (e : GbDelayed)
    (hs : u.parent.meta.isScalar = true)
    (hq : u.mask ≠ none ∨ u.accum ≠ none) :
    Updater.updateE u e = GbDelayed.updateE e u.parent none u.accum none := by
  have hfalse : (u.mask.isNone && u.accum.isNone) = false := by
    rcases hq with h | h
    · cases hm : u.mask
      · exact absurd hm h
      · simp [hm]
    · cases ha : u.accum
      · exact absurd ha h
      · simp [ha]
  simp [Updater.updateE, hfalse, hs]

/-- C9 witness: a concrete scalar-target Updater carrying an accumulator, a
mask and a replace flag. -/
theorem C9_scalar_target_drops_mask_and_replace_witness :
    ((⟨⟨.scalarO ⟨.int64, none⟩, ⟨true, 0, .int64⟩⟩, some ⟨.structureMask, []⟩,
        some (fun a b => a + b), some true⟩ : UpdaterS).parent.meta.isScalar = true)
    ∧ Updater.updateE
        ⟨⟨.scalarO ⟨.int64, none⟩, ⟨true, 0, .int64⟩⟩, some ⟨.structureMask, []⟩,
          some (fun a b => a + b), some true⟩
        ⟨"reduce", .reduceP [⟨1, .int64, [(0, 1)]⟩] (fun a b => a + b), ⟨true, 0, .int64⟩⟩
      = GbDelayed.updateE
          ⟨"reduce", .reduceP [⟨1, .int64, [(0, 1)]⟩] (fun a b => a + b), ⟨true, 0, .int64⟩⟩
          ⟨.scalarO ⟨.int64, none⟩, ⟨true, 0, .int64⟩⟩ none (some (fun a b => a + b)) none :=
  ⟨rfl,
   C9_scalar_target_drops_mask_and_replace
     ⟨⟨.scalarO ⟨.int64, none⟩, ⟨true, 0, .int64⟩⟩, some ⟨.structureMask, []⟩,
       some (fun a b => a + b), some true⟩
     ⟨"reduce", .reduceP [⟨1, .int64, [(0, 1)]⟩] (fun a b => a + b), ⟨true, 0, .int64⟩⟩
     rfl (Or.inl (fun h => Option.noConfusion h))⟩

/-- C10 witness: a concrete inner block of rank 1 and dtype int64. -/
theorem C10_extractor_ndim_is_dtype_witness :
    (Extractor.initE ⟨.int64, 1⟩).ndim = PyAttr.ofDtype .int64
    ∧ (Extractor.initE ⟨.int64, 1⟩).ndim ≠ PyAttr.ofNat 1 :=
  ⟨(C10_extractor_ndim_is_dtype ⟨.int64, 1⟩).1,
   (C10_extractor_ndim_is_dtype ⟨.int64, 1⟩).2 1⟩

end DaskGrblas
